import Mathlib

/-!
Verification development for the ai-shell command-processing pipeline.

The definitions below are a shallow embedding of the Python sources:

* `src/ai_shell/utils/cache.py` — the persistent cache store (`check_cache`,
  `save_cache`, `clean_expired_cache`, `clear_cache`).  The SQLite table keyed
  by `prompt` is modelled as a list of rows with at most one live row found
  per key via `List.find?`; `INSERT OR REPLACE` removes the row with the same
  key and appends the new one.  Wall-clock time (`time.time()`) is passed
  explicitly as an integer parameter.
* `src/ai_shell/command/command_history_manager.py` — the bounded history log.
* `src/ai_shell/command.py` — `CommandProcessor`: `extract_commands`,
  `execute_commands`, `handle_command_output`, `resolve_alias`, `check_cache`
  and the retry loop of `process_command`.  Effects are made explicit:
  the LLM is an oracle `Nat → Option (String × Nat × String)` giving the
  result of the i-th network call (`none` models a raised exception), the
  child process is an oracle `Nat → ProcOutcome` giving the outcome of the
  i-th spawn, and the result records the history entries appended, the
  user-command argument of every generation call, the number of spawns and
  the `save_cache` writes.  Console rendering, logging, temp files and the
  fire-and-forget history save are I/O sinks with no data flow back into the
  pipeline and are not modelled; history-entry construction is treated as a
  total record construction (timestamp and working directory are ambient
  metadata and are omitted from the record).
* `src/ai_shell/llm/prompts.py` — `generate_command_from_prompt` and the
  prompt template (split at its two placeholders).
* `src/ai_shell/command/command_executor.py` and
  `src/ai_shell/utils/command_executor.py` — the two executors' result
  shaping, over the same process-outcome oracle.
* `src/ai_shell/command/command_generator.py` — `sanitize_command`.

Python string primitives are mirrored on `String`/`List Char`:
`str.strip(c)`, `str.strip()`, `str.split()`, `str.split("\n")`,
`str.startswith`, `in` (substring), `removeprefix`, and truthiness of
`Optional[str]` values.
-/

namespace AIShell

/-! ### Python string primitives -/

/-- The backtick character (written via its code point to keep the source
free of raw backticks). -/
def backtickChar : Char := Char.ofNat 96

/-- Drop leading and trailing characters satisfying `p`. -/
def stripWhile (p : Char → Bool) (s : String) : String :=
  String.mk (((s.data.dropWhile p).reverse.dropWhile p).reverse)

/-- Python `s.strip(c)` for a single strip character `c`: remove all leading
and trailing occurrences of `c`. -/
def pyStripChar (c : Char) (s : String) : String :=
  stripWhile (fun d => d == c) s

/-- Python `s.strip()`: remove leading and trailing whitespace. -/
def pyStrip (s : String) : String :=
  stripWhile Char.isWhitespace s

/-- Split a character list at every separator position given by `p`
(keeping empty pieces), mirroring Python `str.split(sep)` for a
single-character separator predicate. -/
def splitWhen (p : Char → Bool) : List Char → List (List Char)
  | [] => [[]]
  | d :: rest =>
    match splitWhen p rest with
    | [] => [[]]
    | h :: t => if p d then [] :: h :: t else (d :: h) :: t

/-- Python `s.split("\n")`. -/
def pySplitLines (s : String) : List String :=
  (splitWhen (fun c => c == '\n') s.data).map String.mk

/-- Python `s.split()`: split on runs of whitespace, dropping empty pieces. -/
def pySplitWhitespace (s : String) : List String :=
  ((splitWhen Char.isWhitespace s.data).filter (fun l => l ≠ [])).map String.mk

/-- Python `s.startswith(p)`, via the character list. -/
def pyStartsWith (s p : String) : Bool :=
  p.data.isPrefixOf s.data

/-- Python `pat in s` (substring containment), via the character list. -/
def pyContains (s pat : String) : Bool :=
  decide (pat.data <:+: s.data)

/-- Python `s.removeprefix(p)`. -/
def pyDropPre (s p : String) : String :=
  if pyStartsWith s p then String.mk (s.data.drop p.data.length) else s

/-- Truthiness of a Python `Optional[str]`: `None` and `""` are falsy. -/
def truthyStr : Option String → Bool
  | none => false
  | some s => decide (s ≠ "")

/-- Python `a or b` on an `Optional[str]` and a default string. -/
def pyOrElse (o : Option String) (d : String) : String :=
  match o with
  | some s => if s = "" then d else s
  | none => d

structure CacheRow where
  prompt : String
  generatedCommand : String
  output : String
  timestamp : Int
deriving Repr, DecidableEq

/-- The TTL used by `check_cache` and `clean_expired_cache`: 3600 seconds. -/
def cacheTTL : Int := 3600

/-- Embedding of `check_cache(prompt)`: look the key up; a row older than the
TTL is treated as absent.  `now` is the value of `time.time()`. -/
def checkCacheStore (st : List CacheRow) (prompt : String) (now : Int) :
    Option String × Option String :=
  match st.find? (fun r => r.prompt = prompt) with
  | some r =>
    if now - r.timestamp < cacheTTL then (some r.generatedCommand, some r.output)
    else (none, none)
  | none => (none, none)

/-- Embedding of `save_cache(command, generated_command, output)`:
`output` is coerced to text (`None` becomes `""`), and the row is written
with `INSERT OR REPLACE` on the primary key `prompt`. -/
def saveCacheStore (st : List CacheRow) (command generatedCommand : String)
    (output : Option String) (now : Int) : List CacheRow :=
  (st.filter (fun r => r.prompt ≠ command)) ++
    [⟨command, generatedCommand, output.getD "", now⟩]

/-- Embedding of `clean_expired_cache()`: delete rows with
`timestamp < now - 3600`. -/
def cleanExpiredCacheStore (st : List CacheRow) (now : Int) : List CacheRow :=
  st.filter (fun r => ¬ (r.timestamp < now - cacheTTL))

/-- Embedding of `clear_cache()`: `DELETE FROM cache`, unconditionally. -/
def clearCacheStore (_st : List CacheRow) : List CacheRow := []

/-! ### History log — `src/ai_shell/command/command_history_manager.py`
and the entry record of `src/ai_shell/datatypes.py` / `src/ai_shell/models.py`
(`CommandHistoryEntry`; the ambient timestamp and working directory are
omitted, see the file header). -/

structure HistEntry where
  command : String
  output : String
  aiResponse : Option String
  status : String
  errorMessage : Option String
  usedCache : Bool
  tokensUsed : Option Nat
  modelUsed : Option String
deriving Repr, DecidableEq

/-- The default `max_history_size` of `CommandHistoryManager.__init__`. -/
def maxHistorySizeDefault : Nat := 100

/-- The list update performed by `CommandHistoryManager.append_to_history`:
append the entry, then `pop(0)` if the length exceeds `max_history_size`. -/
def appendToHistoryList (maxSize : Nat) (hist : List HistEntry) (e : HistEntry) :
    List HistEntry :=
  let h := hist ++ [e]
  if h.length > maxSize then h.tail else h

/-! ### Script extraction — `CommandProcessor.extract_commands`
(`src/ai_shell/command.py` lines 181–199; the copy in
`src/ai_shell/command/command_processor.py` lines 134–145 is identical). -/

/-- Embedding of `extract_commands(ai_response)`: strip leading/trailing
backticks, split into lines, rejoin, and return `[]` when the script is
blank or every line is a `#` comment, else the single rejoined script. -/
def extractCommands (aiResponse : String) : List String :=
  let stripped := pyStripChar backtickChar aiResponse
  let lines := pySplitLines stripped
  let script := String.intercalate "\n" lines
  if pyStrip script = "" ∨ lines.all (fun l => pyStartsWith (pyStrip l) "#") then []
  else [script]

/-- Embedding of `CommandGenerator.sanitize_command`
(`src/ai_shell/command/command_generator.py`):
strip backticks, strip whitespace, remove a leading `bash` then `sh` tag,
strip whitespace again. -/
def sanitizeCommand (command : String) : String :=
  pyStrip (pyDropPre (pyDropPre (pyStrip (pyStripChar backtickChar command)) "bash") "sh")

/-! ### Process outcomes and the two executors -/

/-- Outcome of one child-process spawn, as observed by the Python code:
`completed` carries the exit status and the decoded stdout/stderr,
`timedOut` models `asyncio.TimeoutError`, and `raised` models any other
exception (message of `str(e)`). -/
inductive ProcOutcome where
  | completed (returncode : Int) (stdout stderr : String)
  | timedOut
  | raised (msg : String)
deriving Repr, DecidableEq

/-- `config.default_timeout` default from `src/ai_shell/config.py`. -/
def defaultTimeout : Nat := 120

/-- Embedding of `CommandExecutor.execute_command`
(`src/ai_shell/command/command_executor.py` lines 19–62) over the outcome of
its single spawn: non-zero exit returns the stderr behind an `Error: `
prefix, timeout returns the timeout message with exit code 1, and an
exception returns its message with exit code 1. -/
def executorExecuteCommand (timeout : Nat) (outcome : ProcOutcome) : String × Int :=
  match outcome with
  | .completed rc out err =>
    if rc ≠ 0 then ("Error: " ++ pyStrip err, rc) else (pyStrip out, rc)
  | .timedOut =>
    ("Error: Command execution timed out after " ++ toString timeout ++ " seconds.", 1)
  | .raised msg => ("Error: " ++ msg, 1)

/-- Embedding of `execute_command` (`src/ai_shell/utils/command_executor.py`):
on completion the output is stdout if non-empty else stderr (trimmed), with
the real return code; timeout and exceptions return exit code 1. -/
def utilsExecuteCommand (outcome : ProcOutcome) : String × Int :=
  match outcome with
  | .completed rc out err => ((if out ≠ "" then pyStrip out else pyStrip err), rc)
  | .timedOut =>
    ("Error: Command execution timed out after " ++ toString defaultTimeout ++ " seconds.", 1)
  | .raised msg => ("Error: " ++ msg, 1)

/-! ### LLM generation — `src/ai_shell/llm/prompts.py` -/

/-- Result triple of `CommandProcessor.generate_ai_response`:
`(ai_response, tokens_used, model_used)`. -/
structure GenTriple where
  response : Option String
  tokens : Option Nat
  model : Option String
deriving Repr, DecidableEq

/-- Embedding of `generate_command_from_prompt` composed with the
exception handling of `CommandProcessor.generate_ai_response`
(`src/ai_shell/command.py` lines 154–179).  The argument is the result of
the network call `ai.generate_command(full_prompt)`: `none` models a raised
exception (which `generate_ai_response` catches, returning the all-`None`
triple), and an empty response is turned into `(None, None, None)` by the
`if response:` guard of `generate_command_from_prompt`. -/
def generateCommandFromPrompt (llmResult : Option (String × Nat × String)) : GenTriple :=
  match llmResult with
  | some (r, t, m) => if r ≠ "" then ⟨some r, some t, some m⟩ else ⟨none, none, none⟩
  | none => ⟨none, none, none⟩

/-! ### The command-processing pipeline — `src/ai_shell/command.py` -/

/-- `MAX_RETRIES` from `src/ai_shell/command.py` line 31. -/
def MAX_RETRIES : Nat := 3

/-- Embedding of `CommandProcessor.resolve_alias`: if the first
whitespace-token of the command is a configured alias, substitute it. -/
def resolveAlias (aliases : List (String × String)) (command : String) : Option String :=
  match pySplitWhitespace command with
  | [] => none
  | p :: rest =>
    match (aliases.find? (fun q => q.1 = p)).map Prod.snd with
    | some v => some (v ++ " " ++ String.intercalate " " rest)
    | none => none

/-- Loop body of `CommandProcessor.execute_commands`
(`src/ai_shell/command.py` lines 221–300): for each command, either record a
simulation line, or spawn it (`run execIdx` is the outcome of the next
spawn).  Success (`returncode == 0`) appends the trimmed stdout split into
lines and continues; non-zero exit, timeout and exceptions append an
`Error: `-prefixed message and break.  Returns the joined output and the
next spawn index. -/
def executeCommandsGo (run : Nat → ProcOutcome) (simulationMode : Bool) :
    List String → Nat → List String → String × Nat
  | [], execIdx, acc => (String.intercalate "\n" acc, execIdx)
  | c :: rest, execIdx, acc =>
    if simulationMode then
      executeCommandsGo run simulationMode rest execIdx
        (acc ++ ["[Simulation] Would execute:\n" ++ c])
    else
      match run execIdx with
      | .completed rc out _err =>
        if rc = 0 then
          executeCommandsGo run simulationMode rest (execIdx + 1)
            (acc ++ pySplitLines (pyStrip out))
        else
          (String.intercalate "\n"
            (acc ++ ["Error: Command exited with status " ++ toString rc ++ "\n" ++
              pyStrip _err]), execIdx + 1)
      | .timedOut =>
        (String.intercalate "\n"
          (acc ++ ["Error: Command execution timed out after " ++
            toString defaultTimeout ++ " seconds."]), execIdx + 1)
      | .raised msg =>
        (String.intercalate "\n"
          (acc ++ ["Error: Command execution failed: " ++ msg]), execIdx + 1)

/-- Embedding of `CommandProcessor.execute_commands`. -/
def executeCommands (run : Nat → ProcOutcome) (commands : List String)
    (simulationMode : Bool) (execIdx : Nat) : String × Nat :=
  executeCommandsGo run simulationMode commands execIdx []

/-- Embedding of `CommandProcessor.handle_command_output`
(`src/ai_shell/command.py` lines 359–385): classify by whether the output
starts with `Error: `, append the history entry (`used_cache=False`), and
record the `save_cache(command, last_generated_command, output)` write.
Returns the entry and the cache write. -/
def handleCommandOutput (command output aiResponse lastGenerated : String)
    (tokens : Option Nat) (model : Option String) :
    HistEntry × (String × String × String) :=
  let success := pyStartsWith output "Error:" = false
  let status := if success then "Success" else "Error"
  let errorMessage := if success then none else some output
  (⟨command, output, some aiResponse, status, errorMessage, false, tokens, model⟩,
   (command, lastGenerated, output))

/-- The retry-feedback instruction built at `src/ai_shell/command.py`
lines 109–111. -/
def feedbackCommand (output command : String) : String :=
  "The previous command failed with the following error: " ++ output ++
    "\nPlease provide a corrected version of the command to address this error " ++
    "and continue with the original request: " ++ command

/-- Observable trace of one `process_command` invocation: the return value,
the history entries appended, the `command` argument of each generation
call (in order), the number of child-process spawns, and the
`save_cache` writes `(command, generated_command, output)`. -/
structure PipeResult where
  retval : Option String
  history : List HistEntry
  promptCmds : List String
  execCalls : Nat
  cacheSaves : List (String × String × String)
deriving Repr, DecidableEq

/-- The `for retry in range(MAX_RETRIES)` loop of
`CommandProcessor.process_command` (`src/ai_shell/command.py` lines 75–134).
`remaining` counts the iterations still available (so `retry <
MAX_RETRIES - 1` becomes `0 < remaining - 1` after entering an iteration);
falling out of the loop returns `None`.  `llm i` is the outcome of the i-th
generation network call and `run i` the outcome of the i-th process spawn. -/
def processLoop (llm : Nat → Option (String × Nat × String))
    (run : Nat → ProcOutcome) (simulationMode : Bool) :
    Nat → String → List HistEntry → List String → Nat →
      List (String × String × String) → PipeResult
  | 0, _command, hist, prompts, execIdx, saves =>
    ⟨none, hist, prompts, execIdx, saves⟩
  | remaining + 1, command, hist, prompts, execIdx, saves =>
    let g := generateCommandFromPrompt (llm prompts.length)
    let prompts' := prompts ++ [command]
    if truthyStr g.response = false then
      -- `if not ai_response:` — retry while `retry < MAX_RETRIES - 1`,
      -- else record an `Error` entry and return `None`.
      if 0 < remaining then
        processLoop llm run simulationMode remaining command hist prompts' execIdx saves
      else
        ⟨none,
         hist ++ [⟨command, "", none, "Error", some "Failed to generate AI response",
           false, g.tokens, g.model⟩],
         prompts', execIdx, saves⟩
    else
      let aiResponse := g.response.getD ""
      let commands := extractCommands aiResponse
      let (output, execIdx') := executeCommands run commands simulationMode execIdx
      if pyStartsWith output "Error:" then
        if pyContains output "Command execution timed out" then
          ⟨some output,
           hist ++ [⟨command, output, some aiResponse, "Timeout", some output,
             false, g.tokens, g.model⟩],
           prompts', execIdx', saves⟩
        else if 0 < remaining then
          processLoop llm run simulationMode remaining
            (feedbackCommand output command) hist prompts' execIdx' saves
        else
          -- retries exhausted: fall through to `handle_command_output`.
          let (entry, save) := handleCommandOutput command output aiResponse aiResponse
            g.tokens g.model
          ⟨some output, hist ++ [entry], prompts', execIdx', saves ++ [save]⟩
      else
        let (entry, save) := handleCommandOutput command output aiResponse aiResponse
          g.tokens g.model
        ⟨some output, hist ++ [entry], prompts', execIdx', saves ++ [save]⟩

/-- Embedding of `CommandProcessor.process_command`
(`src/ai_shell/command.py` lines 49–134): resolve aliases, short-circuit on
a truthy cached output (recording a `Success (Cached)` entry), else run the
retry loop.  `cacheRes` is the pair returned by the store lookup
`utils.cache.check_cache(command)`; the wrapper method
`CommandProcessor.check_cache` (lines 144–152) forwards it when the output
is truthy and returns `(None, None)` otherwise. -/
def processCommand (aliases : List (String × String))
    (cacheRes : Option String × Option String)
    (llm : Nat → Option (String × Nat × String)) (run : Nat → ProcOutcome)
    (simulationMode : Bool) (command : String) : PipeResult :=
  let command := pyOrElse (resolveAlias aliases command) command
  let wrapped := if truthyStr cacheRes.2 then cacheRes else (none, none)
  if truthyStr wrapped.2 then
    ⟨wrapped.2,
     [⟨command, wrapped.2.getD "", wrapped.1, "Success (Cached)", none, true,
       none, none⟩],
     [], 0, []⟩
  else
    processLoop llm run simulationMode MAX_RETRIES command [] [] 0 []

/-! ## Helper lemmas -/

theorem isPrefixOf_append_self (l r : List Char) : l.isPrefixOf (l ++ r) = true := by
  induction l with
  | nil => simp [List.isPrefixOf]
  | cons a t ih => simp [List.isPrefixOf, ih]

theorem pyStartsWith_append (s t : String) : pyStartsWith (s ++ t) s = true := by
  simp [pyStartsWith, String.data_append, isPrefixOf_append_self]

theorem find?_filter_ne_none (st : List CacheRow) (k : String) :
    (st.filter (fun r => r.prompt ≠ k)).find? (fun r => r.prompt = k) = none := by
  induction st with
  | nil => rfl
  | cons a t ih =>
    by_cases h : a.prompt = k
    · simp [List.filter, h, ih]
    · simp [List.filter, h, ih, List.find?]

theorem checkCache_save (st : List CacheRow) (k g : String) (o : Option String)
    (t now : Int) (h : now - t < cacheTTL) :
    checkCacheStore (saveCacheStore st k g o t) k now = (some g, some (o.getD "")) := by
  unfold checkCacheStore saveCacheStore
  rw [List.find?_append, find?_filter_ne_none]
  simp [List.find?, h]

theorem tail_append_of_ne_nil (X Y : List HistEntry) (h : X ≠ []) :
    (X ++ Y).tail = X.tail ++ Y := by
  cases X with
  | nil => exact absurd rfl h
  | cons a t => rfl

theorem foldl_appendToHistoryList (m : Nat) (es : List HistEntry) :
    ∀ acc : List HistEntry, acc.length ≤ m →
      es.foldl (appendToHistoryList m) acc =
        (acc ++ es).drop (acc.length + es.length - m) := by
  induction es with
  | nil =>
    intro acc hle
    simp [Nat.sub_eq_zero_of_le hle]
  | cons e es ih =>
    intro acc hle
    rw [List.foldl_cons]
    by_cases hlen : (acc ++ [e]).length > m
    · have hstep : appendToHistoryList m acc e = (acc ++ [e]).tail := by
        simp only [appendToHistoryList]
        rw [if_pos hlen]
      have h2 : ((acc ++ [e]).tail).length = m := by
        have ha : acc.length = m := by
          simp at hlen
          omega
        simp [ha]
      have hlt : ((acc ++ [e]).tail).length ≤ m := le_of_eq h2
      rw [hstep, ih _ hlt]
      have hne : acc ++ [e] ≠ [] := by simp
      rw [← tail_append_of_ne_nil _ es hne, h2, ← List.drop_one, List.drop_drop]
      have h3 : acc ++ e :: es = (acc ++ [e]) ++ es := by simp
      rw [h3]
      congr 1
      have ha : acc.length = m := by
        simp at hlen
        omega
      simp [ha]
      omega
    · have hstep : appendToHistoryList m acc e = acc ++ [e] := by
        simp only [appendToHistoryList]
        rw [if_neg hlen]
      have hle' : (acc ++ [e]).length ≤ m := by
        simp at hlen ⊢
        omega
      rw [hstep, ih _ hle']
      have h3 : acc ++ e :: es = (acc ++ [e]) ++ es := by simp
      rw [h3]
      congr 1
      simp
      omega

theorem intercalate_singleton (s x : String) : String.intercalate s [x] = x := rfl

theorem pyStartsWith_failOutput (c1 : Int) (serr1 : String) :
    pyStartsWith ("Error: Command exited with status " ++ toString c1 ++ "\n" ++
      pyStrip serr1) "Error:" = true := by
  rw [show ("Error: Command exited with status " : String) =
    "Error:" ++ " Command exited with status " from rfl]
  rw [String.append_assoc, String.append_assoc]
  exact pyStartsWith_append _ _

theorem string_mk_data (s : String) : String.mk s.data = s := by
  cases s
  rfl

/-- C5 (counterexample): a timed-out execution returns exit code 1, not the
reserved timeout code 124, in both executors. -/
theorem c5_timeout_code_counterexample :
    executorExecuteCommand 120 ProcOutcome.timedOut =
        ("Error: Command execution timed out after 120 seconds.", 1) ∧
      utilsExecuteCommand ProcOutcome.timedOut =
        ("Error: Command execution timed out after 120 seconds.", 1) ∧
      (executorExecuteCommand 120 ProcOutcome.timedOut).2 ≠ 124 :=
  ⟨rfl, rfl, by decide⟩

/-- C5 (amended): on timeout both executors return the message
`Error: Command execution timed out after N seconds.` together with exit
code 1; the timeout is signalled by the message text, not by a dedicated
flag or the code 124. -/
theorem c5_timeout_result_amended (timeout : Nat) :
    executorExecuteCommand timeout ProcOutcome.timedOut =
        ("Error: Command execution timed out after " ++ toString timeout ++
          " seconds.", 1) ∧
      utilsExecuteCommand ProcOutcome.timedOut =
        ("Error: Command execution timed out after " ++ toString defaultTimeout ++
          " seconds.", 1) :=
  ⟨rfl, rfl⟩

/-- C6: `save_cache(k, g, o)` followed by `check_cache(k)` within the TTL
returns exactly `(g, o)`, with a `None` output coerced to the empty string
at write time. -/
theorem c6_cache_roundtrip (st : List CacheRow) (k g : String) (o : Option String)
    (t now : Int) (h : now - t < cacheTTL) :
    checkCacheStore (saveCacheStore st k g o t) k now = (some g, some (o.getD "")) :=
  checkCache_save st k g o t now h

/-- C6 (witness): concrete round trip through the cache store. -/
theorem c6_cache_roundtrip_witness :
    ((10 : Int) - 0 < cacheTTL) ∧
      checkCacheStore (saveCacheStore [] "list files" "ls" none 0) "list files" 10 =
        (some "ls", some "") :=
  ⟨by decide, c6_cache_roundtrip [] "list files" "ls" none 0 10 (by decide)⟩

/-- C7: after `N > max_size` appends into an empty history, the log holds
exactly the newest `max_size` entries in append order (the oldest
`N - max_size` are evicted first-in-first-out), and the configured default
maximum is 100. -/
theorem c7_history_bound (m : Nat) (es : List HistEntry) (h : es.length > m) :
    es.foldl (appendToHistoryList m) [] = es.drop (es.length - m) ∧
      (es.foldl (appendToHistoryList m) []).length = m ∧
      maxHistorySizeDefault = 100 := by
  have h0 := foldl_appendToHistoryList m es [] (by simp)
  simp only [List.nil_append, List.length_nil, Nat.zero_add] at h0
  refine ⟨h0, ?_, rfl⟩
  rw [h0, List.length_drop]
  omega

/-- C7 (witness): three appends with a bound of two keep only the newest
two entries. -/
theorem c7_history_bound_witness :
    ([⟨"a", "", none, "Success", none, false, none, none⟩,
      ⟨"b", "", none, "Success", none, false, none, none⟩,
      ⟨"c", "", none, "Success", none, false, none, none⟩] : List HistEntry).length > 2 ∧
    (([⟨"a", "", none, "Success", none, false, none, none⟩,
       ⟨"b", "", none, "Success", none, false, none, none⟩,
       ⟨"c", "", none, "Success", none, false, none, none⟩] : List HistEntry).foldl
          (appendToHistoryList 2) [] =
        ([⟨"a", "", none, "Success", none, false, none, none⟩,
          ⟨"b", "", none, "Success", none, false, none, none⟩,
          ⟨"c", "", none, "Success", none, false, none, none⟩] : List HistEntry).drop 1 ∧
      (([⟨"a", "", none, "Success", none, false, none, none⟩,
         ⟨"b", "", none, "Success", none, false, none, none⟩,
         ⟨"c", "", none, "Success", none, false, none, none⟩] : List HistEntry).foldl
          (appendToHistoryList 2) []).length = 2 ∧
      maxHistorySizeDefault = 100) :=
  ⟨by decide,
   c7_history_bound 2
     [⟨"a", "", none, "Success", none, false, none, none⟩,
      ⟨"b", "", none, "Success", none, false, none, none⟩,
      ⟨"c", "", none, "Success", none, false, none, none⟩] (by decide)⟩

/-- C8 (counterexample): for the fenced response the extractor does not
yield `ls` — the legacy `bash` tag is kept as the first script line. -/
theorem c8_extract_counterexample :
    extractCommands "\x60\x60\x60bash\nls\n\x60\x60\x60" ≠ ["ls"] := by
  decide

/-- C8 (amended): `extract_commands` strips only the leading/trailing
backtick fences, keeping a language tag as part of the script: the fenced
response yields exactly `bash\nls\n`; the legacy-tag stripping lives in
`CommandGenerator.sanitize_command`, which maps the same response to `ls`. -/
theorem c8_extract_fences_only_amended :
    extractCommands "\x60\x60\x60bash\nls\n\x60\x60\x60" = ["bash\nls\n"] ∧
      sanitizeCommand "\x60\x60\x60bash\nls\n\x60\x60\x60" = "ls" := by
  constructor
  · decide
  · decide

/-- C4 (counterexample): a command that exits 0 but prints an output
beginning with `Error: ` is classified as a failure — the executor result
carries exit code 1 in its error shaping and `handle_command_output`
records `Error` — so exit code 0 is not the sole success signal. -/
theorem c4_exit_code_counterexample :
    executeCommands (fun _ => ProcOutcome.completed 0 "Error: fake" "") ["x"] false 0 =
        ("Error: fake", 1) ∧
      (handleCommandOutput "c" "Error: fake" "r" "r" none none).1.status = "Error" := by
  decide

/-- C4 (amended): the pipeline classifies an invocation as success exactly
when the captured output does not begin with `Error: `; every non-zero exit
and every timeout produce such a prefixed output (hence drive the retry
loop), but the prefix test — not the exit code itself — is the classifier,
so a zero-exit command whose own stdout begins with `Error: ` is also
classified a failure. -/
theorem c4_success_classification_amended (command output aiResponse : String)
    (tokens : Option Nat) (model : Option String) (rc : Int) (sout serr : String) :
    ((handleCommandOutput command output aiResponse aiResponse tokens model).1.status =
        "Success" ↔ pyStartsWith output "Error:" = false) ∧
      (rc ≠ 0 →
        pyStartsWith
          (executeCommands (fun _ => ProcOutcome.completed rc sout serr)
            [command] false 0).1 "Error:" = true) ∧
      pyStartsWith
        (executeCommands (fun _ => ProcOutcome.timedOut) [command] false 0).1
        "Error:" = true := by
  refine ⟨?_, ?_, ?_⟩
  · unfold handleCommandOutput
    cases hb : pyStartsWith output "Error:" <;> simp [hb]
  · intro hrc
    simp only [executeCommands, executeCommandsGo]
    simp only [Bool.false_eq_true, if_false]
    rw [if_neg hrc]
    simp only [List.nil_append]
    rw [intercalate_singleton]
    exact pyStartsWith_failOutput rc serr
  · simp only [executeCommands, executeCommandsGo]
    simp only [Bool.false_eq_true, if_false]
    simp only [List.nil_append]
    rw [intercalate_singleton]
    decide

/-- C4 (witness): the amended classification at a concrete non-zero exit. -/
theorem c4_success_classification_witness :
    ((handleCommandOutput "c" "out" "r" "r" none none).1.status = "Success" ↔
        pyStartsWith "out" "Error:" = false) ∧
      ((2 : Int) ≠ 0 →
        pyStartsWith
          (executeCommands (fun _ => ProcOutcome.completed 2 "so" "se")
            ["c"] false 0).1 "Error:" = true) ∧
      pyStartsWith
        (executeCommands (fun _ => ProcOutcome.timedOut) ["c"] false 0).1
        "Error:" = true :=
  c4_success_classification_amended "c" "out" "r" none none 2 "so" "se"

/-- C10: a live cache row whose stored output is the empty string (for
example after an upsert with a `None` output) is present for the store
lookup, yet the pipeline treats it as a miss: `process()` behaves exactly
as if the lookup had returned nothing, proceeding to a fresh generation
instead of returning the cached result. -/
theorem c10_empty_cached_output_is_miss (st : List CacheRow) (k g : String)
    (t now : Int) (h : now - t < cacheTTL) :
    checkCacheStore (saveCacheStore st k g none t) k now = (some g, some "") ∧
      ∀ aliases llm run sim cmd,
        processCommand aliases (checkCacheStore (saveCacheStore st k g none t) k now)
            llm run sim cmd =
          processCommand aliases (none, none) llm run sim cmd := by
  have h1 := checkCache_save st k g none t now h
  refine ⟨h1, ?_⟩
  intro aliases llm run sim cmd
  rw [h1]
  simp [processCommand, truthyStr]

/-- C10 (witness): concrete empty-output cache row treated as a miss. -/
theorem c10_empty_cached_output_is_miss_witness :
    checkCacheStore (saveCacheStore [] "k" "ls" none 0) "k" 10 = (some "ls", some "") ∧
      ∀ aliases llm run sim cmd,
        processCommand aliases (checkCacheStore (saveCacheStore [] "k" "ls" none 0) "k" 10)
            llm run sim cmd =
          processCommand aliases (none, none) llm run sim cmd :=
  c10_empty_cached_output_is_miss [] "k" "ls" 0 10 (by decide)

/-- C9: clearing the cache store deletes every entry unconditionally, so a
subsequent lookup returns absent for every key at every time — including
keys whose entries were not yet expired. -/
theorem c9_clear_cache_unconditional (st : List CacheRow) (k : String) (now : Int) :
    checkCacheStore (clearCacheStore st) k now = (none, none) :=
  rfl

end AIShell
